import Mathlib

/-!
Shallow embedding of src/qiita-editor-with-agent/main.py.

The Python module wires a Gradio UI to an LLM-agent pipeline that reviews
and posts articles to Qiita.  The executable logic embedded here is:

* the Python string helpers used by the code (str.strip, str.split with an
  explicit single-space separator);
* the data model (ArticleInformation, CheckResult, ItemTag and the
  CreateItemRequest payload built from ArticleInformation.model_dump());
* input_validation_check (main.py lines 193-203);
* confirm_to_human (lines 52-63), the always-accept stub;
* publish_to_platform (lines 66-89);
* review_and_post (lines 180-247), a generator that yields chat
  transcripts; it is embedded as a function returning the list of yielded
  transcripts, the terminal outcome, and the list of platform calls made.

The editor / reviewer / approver agents (lines 92-177) are LLM roles whose
decision logic lives in natural-language instructions, not executable
code; those parts are modelled from the spec and are marked as such.
-/

namespace QiitaEditor

/-- The whitespace recognised by Python str.strip(): every character for
which str.isspace() holds, i.e. U+0009-U+000D, U+001C-U+001F, the space,
U+0085, U+00A0, U+1680, U+2000-U+200A, U+2028, U+2029, U+202F, U+205F and
the ideographic space U+3000. -/
def isPythonSpace (c : Char) : Bool :=
  let n := c.toNat
  (0x09 ≤ n && n ≤ 0x0d) || (0x1c ≤ n && n ≤ 0x1f) || n = 0x20 ||
    n = 0x85 || n = 0xa0 || n = 0x1680 || (0x2000 ≤ n && n ≤ 0x200a) ||
    n = 0x2028 || n = 0x2029 || n = 0x202f || n = 0x205f || n = 0x3000

/-- Drop leading Python whitespace from a character list. -/
def pythonStripLeft : List Char → List Char
  | [] => []
  | c :: cs => if isPythonSpace c then pythonStripLeft cs else c :: cs

/-- Python str.strip(): drop whitespace from both ends. -/
def pythonStrip (s : String) : String :=
  String.mk ((pythonStripLeft ((pythonStripLeft s.data).reverse)).reverse)

/-- Python str.split(sep) with an explicit one-character separator: every
occurrence of the separator ends a field, and the empty string yields one
empty field. -/
def splitOnChar (sep : Char) : List Char → List (List Char)
  | [] => [[]]
  | c :: cs =>
    if c = sep then [] :: splitOnChar sep cs
    else
      match splitOnChar sep cs with
      | [] => [[c]]
      | h :: t => (c :: h) :: t

/-- Python s.split(" "). -/
def pythonSplitSpace (s : String) : List String :=
  (splitOnChar ' ' s.data).map String.mk

/-- The tag-name parse used twice by main.py: str(tags).strip().split(" "). -/
def parseTags (tags : String) : List String :=
  pythonSplitSpace (pythonStrip tags)

/-- qiita.v2.models.item_tag.ItemTag as constructed by review_and_post:
ItemTag(name=x, versions=[]). -/
structure ItemTag where
  name : String
  versions : List String
deriving DecidableEq, Repr

/-- ArticleInformation (main.py lines 29-39): the context object handed to
the agent run and consumed by publish_to_platform. -/
structure ArticleInformation where
  body : String := ""
  tags : List ItemTag
  title : String := ""
  «private» : Bool := true
  tweet : Bool := false
  slide : Bool := false
deriving DecidableEq, Repr

/-- The status literal of CheckResult (main.py line 47). -/
inductive VerdictStatus
  | reject
  | accept
deriving DecidableEq, Repr

/-- CheckResult (main.py lines 42-49): the reviewer / editor verdict. -/
structure CheckResult where
  status : VerdictStatus
  name : String
  comment : String
deriving DecidableEq, Repr

/-- CreateItemRequest(**article_info.model_dump()) (main.py line 85):
the Qiita create-item payload carries exactly the ArticleInformation
fields. -/
structure CreateItemRequest where
  body : String
  tags : List ItemTag
  title : String
  «private» : Bool
  tweet : Bool
  slide : Bool
deriving DecidableEq, Repr

/-- The payload built from an ArticleInformation by model_dump. -/
def CreateItemRequest.ofArticle (a : ArticleInformation) : CreateItemRequest :=
  { body := a.body
    tags := a.tags
    title := a.title
    «private» := a.«private»
    tweet := a.tweet
    slide := a.slide }

/-- MAX_ARTICLE_TAGS (main.py line 26), default value 5. -/
def MAX_ARTICLE_TAGS : Nat := 5

/-- input_validation_check (main.py lines 193-203). -/
def input_validation_check (title tags body : String) : Bool × String :=
  if title.length = 0 then
    (false, "タイトルが空です。タイトルを入力してください。")
  else if body.length = 0 then
    (false, "本文が空です。本文を入力してください。")
  else if (parseTags tags).length > MAX_ARTICLE_TAGS then
    (false, "タグが多すぎます。5 以下にしてください。")
  else
    (true, "問題ありません。")

/-- confirm_to_human (main.py lines 52-63): the stubbed Human Confirmation
Gate, which returns "accept" for every question. -/
def confirm_to_human (message : String) : String :=
  "accept"

/-- Errors publish_to_platform can raise: the explicit ValueError for an
unsupported platform, and the NameError that would occur if the result
variable were never assigned. -/
inductive PublishError
  | valueError (msg : String)
  | nameError
deriving DecidableEq, Repr

/-- publish_to_platform (main.py lines 66-89).  The external Qiita REST
client is abstracted as a function from the request payload to the
response data (the created article URL). -/
def publish_to_platform (client : CreateItemRequest → String)
    (platform : String) (ctx : ArticleInformation) : Except PublishError String :=
  if platform ∈ (["qiita"] : List String) then
    if platform = "qiita" then
      Except.ok (client (CreateItemRequest.ofArticle ctx))
    else
      Except.error PublishError.nameError
  else
    Except.error (PublishError.valueError ("その媒体はサポートしていません: " ++ platform))

/-- Modelled from the spec: the terminal decision of a workflow run
(spec section 3, WorkflowOutcome). -/
inductive Decision
  | Published
  | Rejected
  | InvalidInput
deriving DecidableEq, Repr

/-- Modelled from the spec: WorkflowOutcome (spec section 3). -/
structure WorkflowOutcome where
  decision : Decision
  message : String
  publishedUrl : Option String
deriving DecidableEq, Repr

/-- Modelled from the spec: the external collaborators of a workflow run.
The three reviewer roles, the editor summaries and the approver question
are LLM roles (main.py lines 92-177) whose behaviour is free-text
instructions, so they appear here as parameters; human_gate is the
Human Confirmation Gate interface and client the Platform Client. -/
structure AgentEnv where
  readability_verdict : String → CheckResult
  quality_verdict : String → CheckResult
  code_format_verdict : String → CheckResult
  human_gate : String → String
  approval_question : ArticleInformation → String
  client : CreateItemRequest → String
  rejection_message : CheckResult → CheckResult → CheckResult → String
  gate_reject_message : String
  publish_summary : ArticleInformation → String → String
  publish_error_message : PublishError → String

/-- Modelled from the spec: the editor-agent run (spec sections 4.2-4.4 and
the instructions of editor_agent / applover_agent, main.py lines 92-177).
The editor consults the three reviewers on the article body; if any
rejects, the outcome is Rejected with the editor's aggregated explanation;
if all accept, the approver asks the Human Confirmation Gate and, on the
answer "accept", calls the Platform Client exactly once via
publish_to_platform with the unchanged ArticleInformation context.
Returns the outcome and the list of platform calls made. -/
def run_editor_agent (env : AgentEnv) (info : ArticleInformation) :
    WorkflowOutcome × List CreateItemRequest :=
  let v1 := env.readability_verdict info.body
  let v2 := env.quality_verdict info.body
  let v3 := env.code_format_verdict info.body
  if v1.status = VerdictStatus.accept ∧ v2.status = VerdictStatus.accept ∧
      v3.status = VerdictStatus.accept then
    if env.human_gate (env.approval_question info) = "accept" then
      match publish_to_platform env.client "qiita" info with
      | Except.ok url =>
        (⟨Decision.Published, env.publish_summary info url, some url⟩,
         [CreateItemRequest.ofArticle info])
      | Except.error e =>
        (⟨Decision.Rejected, env.publish_error_message e, none⟩,
         [CreateItemRequest.ofArticle info])
    else
      (⟨Decision.Rejected, env.gate_reject_message, none⟩, [])
  else
    (⟨Decision.Rejected, env.rejection_message v1 v2 v3, none⟩, [])

/-- One chat transcript entry (role, content). -/
structure ChatMessage where
  role : String
  content : String
deriving DecidableEq, Repr

/-- The three progress entries review_and_post appends before validating
(main.py lines 186-190). -/
def initial_messages (title : String) : List ChatMessage :=
  [⟨"user", "「" ++ title ++ "」を Qiita に投稿して"⟩,
   ⟨"assistant", "はい、チェックしてから投稿しますね"⟩,
   ⟨"assistant", "・・・"⟩]

/-- The ArticleInformation instantiated by review_and_post after a
successful validation (main.py lines 213-222). -/
def article_info (title tags body : String)
    (private_flag slide_flag : Bool) : ArticleInformation :=
  { title := pythonStrip title
    tags := (parseTags tags).map (fun x => ⟨x, []⟩)
    body := body
    «private» := private_flag
    slide := slide_flag }

/-- The observable behaviour of one review_and_post run: the transcripts
yielded to the UI in order, the terminal outcome, the platform calls made,
whether the editor-agent run was started, and which reviewer roles were
consulted. -/
structure RunResult where
  yields : List (List ChatMessage)
  outcome : WorkflowOutcome
  calls : List CreateItemRequest
  agent_started : Bool
  reviewer_consults : List String
deriving DecidableEq, Repr

/-- review_and_post (main.py lines 180-247).  The generator is embedded as
a function from the submit inputs and the current transcript to the run's
observable behaviour; the agent run is the spec-modelled
run_editor_agent and its final chat output is the outcome message. -/
def review_and_post (env : AgentEnv) (title tags body : String)
    (private_flag slide_flag : Bool)
    (chat_history : List ChatMessage) : RunResult :=
  let h1 := chat_history ++ initial_messages title
  let vr := input_validation_check title tags body
  if vr.1 = false then
    { yields := [h1, h1 ++ [⟨"assistant", vr.2⟩]]
      outcome := ⟨Decision.InvalidInput, vr.2, none⟩
      calls := []
      agent_started := false
      reviewer_consults := [] }
  else
    let info := article_info title tags body private_flag slide_flag
    let res := run_editor_agent env info
    { yields := [h1, h1 ++ [⟨"assistant", res.1.message⟩]]
      outcome := res.1
      calls := res.2
      agent_started := true
      reviewer_consults := ["readability", "quality", "code_format"] }

/-- A concrete environment for evaluating runs: every reviewer accepts,
the gate is the code's confirm_to_human stub, and the platform client
returns a fixed URL. -/
def stubEnv : AgentEnv :=
  { readability_verdict := fun _ => ⟨VerdictStatus.accept, "読みやすさ", "ok"⟩
    quality_verdict := fun _ => ⟨VerdictStatus.accept, "品質", "ok"⟩
    code_format_verdict := fun _ => ⟨VerdictStatus.accept, "コード", "ok"⟩
    human_gate := confirm_to_human
    approval_question := fun info => "投稿してよいですか: " ++ info.title
    client := fun _ => "https://qiita.com/items/0123456789abcdef"
    rejection_message := fun v1 v2 v3 => v1.comment ++ v2.comment ++ v3.comment
    gate_reject_message := "第三者の判断により公開できません"
    publish_summary := fun _ url => "投稿しました: " ++ url
    publish_error_message := fun _ => "投稿に失敗しました" }

/-! Helper lemmas shared by the claim theorems. -/

theorem string_length_eq_zero (s : String) : s.length = 0 ↔ s = "" := by
  cases s with
  | mk data =>
    simp [String.length, List.length_eq_zero]
    constructor
    · intro h; subst h; rfl
    · intro h; simpa using congrArg String.data h

theorem publish_to_platform_qiita (client : CreateItemRequest → String)
    (ctx : ArticleInformation) :
    publish_to_platform client "qiita" ctx =
      Except.ok (client (CreateItemRequest.ofArticle ctx)) := by
  simp [publish_to_platform]

theorem run_editor_agent_calls (env : AgentEnv) (info : ArticleInformation) :
    (run_editor_agent env info).2 = [] ∨
      ((run_editor_agent env info).2 = [CreateItemRequest.ofArticle info] ∧
        (run_editor_agent env info).1.decision = Decision.Published) := by
  unfold run_editor_agent
  by_cases hc : (env.readability_verdict info.body).status = VerdictStatus.accept ∧
      (env.quality_verdict info.body).status = VerdictStatus.accept ∧
      (env.code_format_verdict info.body).status = VerdictStatus.accept
  · by_cases hg : env.human_gate (env.approval_question info) = "accept"
    · simp [hc.1, hc.2.1, hc.2.2, hg, publish_to_platform_qiita]
    · simp [hc.1, hc.2.1, hc.2.2, hg]
  · simp only [if_neg hc]
    simp

theorem run_editor_agent_not_invalid (env : AgentEnv) (info : ArticleInformation) :
    (run_editor_agent env info).1.decision ≠ Decision.InvalidInput := by
  unfold run_editor_agent
  by_cases hc : (env.readability_verdict info.body).status = VerdictStatus.accept ∧
      (env.quality_verdict info.body).status = VerdictStatus.accept ∧
      (env.code_format_verdict info.body).status = VerdictStatus.accept
  · by_cases hg : env.human_gate (env.approval_question info) = "accept"
    · simp [hc.1, hc.2.1, hc.2.2, hg, publish_to_platform_qiita]
    · simp [hc.1, hc.2.1, hc.2.2, hg]
  · simp only [if_neg hc]
    simp

theorem input_validation_check_true (title tags body : String) :
    (input_validation_check title tags body).1 = true ↔
      title ≠ "" ∧ body ≠ "" ∧ (parseTags tags).length ≤ MAX_ARTICLE_TAGS := by
  unfold input_validation_check
  by_cases ht : title = ""
  · simp [ht, string_length_eq_zero]
  · by_cases hb : body = ""
    · simp [ht, hb, string_length_eq_zero]
    · by_cases htag : MAX_ARTICLE_TAGS < (parseTags tags).length
      · simp [ht, hb, htag, string_length_eq_zero, Nat.not_le_of_lt htag]
      · simp [ht, hb, htag, string_length_eq_zero, Nat.le_of_not_lt htag]

theorem mem_pythonStripLeft {c : Char} (hc : isPythonSpace c = false) :
    ∀ l : List Char, c ∈ l → c ∈ pythonStripLeft l := by
  intro l
  induction l with
  | nil => simp
  | cons x xs ih =>
    intro h
    unfold pythonStripLeft
    by_cases hx : isPythonSpace x
    · rw [if_pos hx]
      rcases List.mem_cons.mp h with h | h
      · subst h; rw [hc] at hx; exact absurd hx (by simp)
      · exact ih h
    · rw [if_neg hx]
      exact h

theorem pythonStrip_ne_empty {s : String} {c : Char} (hc : c ∈ s.data)
    (hcs : isPythonSpace c = false) : pythonStrip s ≠ "" := by
  intro h
  have hmem : c ∈ (pythonStripLeft ((pythonStripLeft s.data).reverse)).reverse := by
    rw [List.mem_reverse]
    exact mem_pythonStripLeft hcs _
      (by rw [List.mem_reverse]; exact mem_pythonStripLeft hcs _ hc)
  unfold pythonStrip at h
  have hdata : (pythonStripLeft ((pythonStripLeft s.data).reverse)).reverse = [] :=
    congrArg String.data h
  rw [hdata] at hmem
  exact absurd hmem (by simp)

/-! The claim theorems. -/

/-- C1: if the validation passes, every reviewer role accepts and the Human
Confirmation Gate answers accept, then the run makes exactly one Platform
Client call whose title, body and tags are exactly those of the constructed
ArticleInformation (no mutation by any role), and the outcome is Published
with the URL the client returned. -/
theorem all_accept_single_publish (env : AgentEnv) (title tags body : String)
    (private_flag slide_flag : Bool) (chat_history : List ChatMessage)
    (hvalid : (input_validation_check title tags body).1 = true)
    (hr1 : (env.readability_verdict body).status = VerdictStatus.accept)
    (hr2 : (env.quality_verdict body).status = VerdictStatus.accept)
    (hr3 : (env.code_format_verdict body).status = VerdictStatus.accept)
    (hgate : env.human_gate (env.approval_question
        (article_info title tags body private_flag slide_flag)) = "accept") :
    (review_and_post env title tags body private_flag slide_flag chat_history).calls =
      [CreateItemRequest.ofArticle (article_info title tags body private_flag slide_flag)]
    ∧ (CreateItemRequest.ofArticle
        (article_info title tags body private_flag slide_flag)).title =
        (article_info title tags body private_flag slide_flag).title
    ∧ (CreateItemRequest.ofArticle
        (article_info title tags body private_flag slide_flag)).body =
        (article_info title tags body private_flag slide_flag).body
    ∧ (CreateItemRequest.ofArticle
        (article_info title tags body private_flag slide_flag)).tags =
        (article_info title tags body private_flag slide_flag).tags
    ∧ (review_and_post env title tags body private_flag slide_flag
        chat_history).outcome.decision = Decision.Published
    ∧ (review_and_post env title tags body private_flag slide_flag
        chat_history).outcome.publishedUrl =
        some (env.client (CreateItemRequest.ofArticle
          (article_info title tags body private_flag slide_flag))) := by
  have hbody : (article_info title tags body private_flag slide_flag).body = body := rfl
  refine ⟨?_, rfl, rfl, rfl, ?_, ?_⟩ <;>
    simp [review_and_post, hvalid, run_editor_agent, hbody, hr1, hr2, hr3, hgate,
      publish_to_platform_qiita]

/-- C1 witness: the spec's example.  For title テスト記事, tags "go rust",
body 見出し/テキスト and visibility private, with every stub reviewer
accepting and the stub gate accepting, the single platform call carries
tags go and rust and private true, and the decision is Published. -/
theorem all_accept_single_publish_witness :
    (input_validation_check "テスト記事" "go rust" "# 見出し\nテキスト").1 = true
    ∧ (review_and_post stubEnv "テスト記事" "go rust" "# 見出し\nテキスト"
        true false []).calls =
        [⟨"# 見出し\nテキスト", [⟨"go", []⟩, ⟨"rust", []⟩], "テスト記事",
          true, false, false⟩]
    ∧ (review_and_post stubEnv "テスト記事" "go rust" "# 見出し\nテキスト"
        true false []).outcome.decision = Decision.Published := by
  have h := all_accept_single_publish stubEnv "テスト記事" "go rust"
    "# 見出し\nテキスト" true false [] (by decide) rfl rfl rfl rfl
  exact ⟨by decide, h.1.trans (by decide), h.2.2.2.2.1⟩

/-- C2: validation fails exactly when the title is empty, the body is empty,
or the parsed tag count exceeds MAX_ARTICLE_TAGS (5); each failure yields
its own distinct message and the first failing rule wins, checked in the
order title, body, tag count. -/
theorem input_validation_check_spec (title tags body : String) :
    ((input_validation_check title tags body).1 = false ↔
      title = "" ∨ body = "" ∨ MAX_ARTICLE_TAGS < (parseTags tags).length)
    ∧ (title = "" →
        input_validation_check title tags body =
          (false, "タイトルが空です。タイトルを入力してください。"))
    ∧ (title ≠ "" → body = "" →
        input_validation_check title tags body =
          (false, "本文が空です。本文を入力してください。"))
    ∧ (title ≠ "" → body ≠ "" → MAX_ARTICLE_TAGS < (parseTags tags).length →
        input_validation_check title tags body =
          (false, "タグが多すぎます。5 以下にしてください。"))
    ∧ (title ≠ "" → body ≠ "" → ¬ MAX_ARTICLE_TAGS < (parseTags tags).length →
        input_validation_check title tags body = (true, "問題ありません。"))
    ∧ ("タイトルが空です。タイトルを入力してください。" ≠
        "本文が空です。本文を入力してください。")
    ∧ ("タイトルが空です。タイトルを入力してください。" ≠
        "タグが多すぎます。5 以下にしてください。")
    ∧ ("本文が空です。本文を入力してください。" ≠
        "タグが多すぎます。5 以下にしてください。") := by
  unfold input_validation_check
  by_cases ht : title = ""
  · simp [ht, string_length_eq_zero]
  · by_cases hb : body = ""
    · simp [ht, hb, string_length_eq_zero]
    · by_cases htag : MAX_ARTICLE_TAGS < (parseTags tags).length
      · simp [ht, hb, htag, string_length_eq_zero]
      · simp [ht, hb, htag, string_length_eq_zero]

/-- C3: when validation fails, the run terminates as InvalidInput with the
failure-specific message as the only entry appended after the progress
entries, no platform call is made, the editor-agent run is never started
and no reviewer role is consulted. -/
theorem invalid_input_terminates (env : AgentEnv) (title tags body : String)
    (private_flag slide_flag : Bool) (chat_history : List ChatMessage)
    (hinvalid : (input_validation_check title tags body).1 = false) :
    review_and_post env title tags body private_flag slide_flag chat_history =
      { yields := [chat_history ++ initial_messages title,
                   chat_history ++ initial_messages title ++
                     [⟨"assistant", (input_validation_check title tags body).2⟩]]
        outcome := ⟨Decision.InvalidInput,
                    (input_validation_check title tags body).2, none⟩
        calls := []
        agent_started := false
        reviewer_consults := [] } := by
  simp [review_and_post, hinvalid]

/-- C3 witness: a submission with an empty title yields InvalidInput with
the title-specific message, no downstream calls and no agent run. -/
theorem invalid_input_terminates_witness :
    (input_validation_check "" "go" "本文").1 = false
    ∧ review_and_post stubEnv "" "go" "本文" true false [] =
      { yields := [[] ++ initial_messages "",
                   [] ++ initial_messages "" ++
                     [⟨"assistant", (input_validation_check "" "go" "本文").2⟩]]
        outcome := ⟨Decision.InvalidInput,
                    "タイトルが空です。タイトルを入力してください。", none⟩
        calls := []
        agent_started := false
        reviewer_consults := [] } := by
  have h := invalid_input_terminates stubEnv "" "go" "本文" true false [] (by decide)
  exact ⟨by decide, h.trans (by decide)⟩

/-- C4: in every run the Platform Client is called at most once, and a call
happens only when the run's decision is Published. -/
theorem platform_call_at_most_once (env : AgentEnv) (title tags body : String)
    (private_flag slide_flag : Bool) (chat_history : List ChatMessage) :
    (review_and_post env title tags body private_flag slide_flag
        chat_history).calls = [] ∨
      ((review_and_post env title tags body private_flag slide_flag
          chat_history).calls.length = 1 ∧
        (review_and_post env title tags body private_flag slide_flag
          chat_history).outcome.decision = Decision.Published) := by
  cases hb : (input_validation_check title tags body).1 with
  | false => simp [review_and_post, hb]
  | true =>
    have h := run_editor_agent_calls env
      (article_info title tags body private_flag slide_flag)
    rcases h with h | ⟨h1, h2⟩
    · left; simp [review_and_post, hb, h]
    · right; simp [review_and_post, hb, h1, h2]

/-- C5 counterexample: the claim that every ArticleInformation built after a
successful validation has a non-empty title fails for the whitespace-only
title " ": validation passes (its length is 1) but the constructed title is
stripped to the empty string. -/
theorem whitespace_title_passes_validation :
    (input_validation_check " " "a" "b").1 = true ∧
      (article_info " " "a" "b" true false).title = "" := by
  exact ⟨rfl, rfl⟩

/-- C5 amended: every ArticleInformation built after a successful validation
has a non-empty body and at most MAX_ARTICLE_TAGS tags; its title is the
stripped submitted title, which is non-empty whenever the submitted title
contains a non-whitespace character (but may be empty for a whitespace-only
submitted title). -/
theorem article_info_invariant (title tags body : String)
    (private_flag slide_flag : Bool)
    (hvalid : (input_validation_check title tags body).1 = true) :
    (article_info title tags body private_flag slide_flag).body ≠ ""
    ∧ (article_info title tags body private_flag slide_flag).tags.length ≤
        MAX_ARTICLE_TAGS
    ∧ (article_info title tags body private_flag slide_flag).title =
        pythonStrip title
    ∧ ((∃ c ∈ title.data, isPythonSpace c = false) →
        (article_info title tags body private_flag slide_flag).title ≠ "") := by
  obtain ⟨ht, hb, htag⟩ := (input_validation_check_true title tags body).mp hvalid
  refine ⟨hb, ?_, rfl, ?_⟩
  · simpa [article_info] using htag
  · rintro ⟨c, hc, hcs⟩
    exact pythonStrip_ne_empty hc hcs

/-- C5 amended witness: the invariant at the concrete valid submission with
title " t ", tags "go rust" and body "b". -/
theorem article_info_invariant_witness :
    (input_validation_check " t " "go rust" "b").1 = true
    ∧ ((article_info " t " "go rust" "b" true false).body ≠ ""
    ∧ (article_info " t " "go rust" "b" true false).tags.length ≤
        MAX_ARTICLE_TAGS
    ∧ (article_info " t " "go rust" "b" true false).title = pythonStrip " t "
    ∧ ((∃ c ∈ (" t " : String).data, isPythonSpace c = false) →
        (article_info " t " "go rust" "b" true false).title ≠ "")) := by
  exact ⟨by decide, article_info_invariant " t " "go rust" "b" true false (by decide)⟩

/-- C6: every run yields exactly two transcripts: the input transcript with
the three progress entries appended, then the same list with one terminal
assistant entry appended; in particular the caller's transcript is a prefix
of every yielded transcript and prior entries are never mutated or
removed. -/
theorem transcript_append_only (env : AgentEnv) (title tags body : String)
    (private_flag slide_flag : Bool) (chat_history : List ChatMessage) :
    ∃ final : String,
      (review_and_post env title tags body private_flag slide_flag
          chat_history).yields =
        [chat_history ++ initial_messages title,
         chat_history ++ initial_messages title ++ [⟨"assistant", final⟩]]
      ∧ ∀ y ∈ (review_and_post env title tags body private_flag slide_flag
          chat_history).yields, ∃ rest, y = chat_history ++ rest := by
  cases hb : (input_validation_check title tags body).1 with
  | false =>
    refine ⟨(input_validation_check title tags body).2, ?_, ?_⟩
    · simp [review_and_post, hb]
    · intro y hy
      simp [review_and_post, hb] at hy
      rcases hy with hy | hy <;> subst hy
      · exact ⟨initial_messages title, rfl⟩
      · exact ⟨initial_messages title ++
          [⟨"assistant", (input_validation_check title tags body).2⟩], by simp⟩
  | true =>
    refine ⟨(run_editor_agent env
      (article_info title tags body private_flag slide_flag)).1.message, ?_, ?_⟩
    · simp [review_and_post, hb]
    · intro y hy
      simp [review_and_post, hb] at hy
      rcases hy with hy | hy <;> subst hy
      · exact ⟨initial_messages title, rfl⟩
      · exact ⟨initial_messages title ++
          [⟨"assistant", (run_editor_agent env
            (article_info title tags body private_flag slide_flag)).1.message⟩],
          by simp⟩

/-- C7: the Human Confirmation Gate stub approves every question: for every
message, confirm_to_human returns the string accept. -/
theorem confirm_to_human_always_accept (message : String) :
    confirm_to_human message = "accept" := rfl

/-- C8: validation is a pure, deterministic function of the submitted title,
tags and body: two runs with the same three strings but arbitrary
environments, flags and transcripts agree on whether the outcome is
InvalidInput and, when it is, on the outcome message. -/
theorem validation_pure (env1 env2 : AgentEnv) (title tags body : String)
    (p1 s1 p2 s2 : Bool) (ch1 ch2 : List ChatMessage) :
    (((review_and_post env1 title tags body p1 s1 ch1).outcome.decision =
        Decision.InvalidInput) ↔
      ((review_and_post env2 title tags body p2 s2 ch2).outcome.decision =
        Decision.InvalidInput))
    ∧ ((review_and_post env1 title tags body p1 s1 ch1).outcome.decision =
          Decision.InvalidInput →
        (review_and_post env1 title tags body p1 s1 ch1).outcome.message =
          (review_and_post env2 title tags body p2 s2 ch2).outcome.message) := by
  cases hb : (input_validation_check title tags body).1 with
  | false => simp [review_and_post, hb]
  | true => simp [review_and_post, hb, run_editor_agent_not_invalid]

/-- C9: with a non-empty title and body and an empty tags string, validation
succeeds and the constructed article carries exactly one tag whose name is
the empty string; consecutive spaces in the tags string produce empty-named
tags that count toward the maximum, so "a b c d  e" parses to six tags and
fails validation. -/
theorem empty_tags_parse (title body : String) (private_flag slide_flag : Bool)
    (ht : title ≠ "") (hb : body ≠ "") :
    (input_validation_check title "" body).1 = true
    ∧ (article_info title "" body private_flag slide_flag).tags = [⟨"", []⟩]
    ∧ parseTags "a  b" = ["a", "", "b"]
    ∧ (parseTags "a b c d  e").length = 6
    ∧ (input_validation_check "t" "a b c d  e" "x").1 = false := by
  refine ⟨?_, rfl, by decide, by decide, by decide⟩
  exact (input_validation_check_true title "" body).mpr ⟨ht, hb, by decide⟩

/-- C9 witness: the empty-tags behaviour at title "t" and body "b". -/
theorem empty_tags_parse_witness :
    ("t" : String) ≠ "" ∧ ("b" : String) ≠ ""
    ∧ ((input_validation_check "t" "" "b").1 = true
    ∧ (article_info "t" "" "b" true false).tags = [⟨"", []⟩]
    ∧ parseTags "a  b" = ["a", "", "b"]
    ∧ (parseTags "a b c d  e").length = 6
    ∧ (input_validation_check "t" "a b c d  e" "x").1 = false) := by
  exact ⟨by decide, by decide,
    empty_tags_parse "t" "b" true false (by decide) (by decide)⟩

/-- C10: for the one permitted platform value "qiita", publish_to_platform
returns the client's response and never the unsupported-platform
ValueError. -/
theorem publish_supported_platform_total (client : CreateItemRequest → String)
    (ctx : ArticleInformation) (platform : String) (hp : platform = "qiita") :
    publish_to_platform client platform ctx =
      Except.ok (client (CreateItemRequest.ofArticle ctx))
    ∧ ∀ msg : String, publish_to_platform client platform ctx ≠
        Except.error (PublishError.valueError msg) := by
  subst hp
  refine ⟨publish_to_platform_qiita client ctx, ?_⟩
  intro msg
  rw [publish_to_platform_qiita client ctx]
  simp

/-- C10 witness: publishing with platform "qiita" and a concrete client
returns the client's URL. -/
theorem publish_supported_platform_total_witness :
    publish_to_platform (fun _ => "https://example.com/items/1") "qiita"
        ⟨"b", [], "t", true, false, false⟩ =
      Except.ok "https://example.com/items/1"
    ∧ ∀ msg : String,
        publish_to_platform (fun _ => "https://example.com/items/1") "qiita"
          ⟨"b", [], "t", true, false, false⟩ ≠
          Except.error (PublishError.valueError msg) := by
  have h := publish_supported_platform_total
    (fun _ => "https://example.com/items/1")
    ⟨"b", [], "t", true, false, false⟩ "qiita" rfl
  exact ⟨h.1, h.2⟩

end QiitaEditor
